import Mathlib

/-!
Verification of the GreenCredits waste-reporting server core: zone
classification, streak tracking, credit ledger, badge engine and the
report-submission orchestrator, embedded shallowly from the JavaScript
source (`detectZone` / `detectZoneFromCoordinates`, the `/api/report`,
`/api/redeem` and admin status-update handlers, and the signup-time
credit-account initialisation).

JavaScript numbers are modelled as `Int` (all credit amounts are
integers in the source) and GPS coordinates as `ℚ`; `NaN` results of
`parseFloat` are modelled as `none`.  Form fields arriving in
`req.body` are modelled as `Option String`, with JavaScript truthiness
(`undefined`/`""` are falsy) made explicit.
-/

namespace GreenCredits

/-! ### JavaScript-value helpers -/

/-- Truthiness of an optional string field of `req.body`:
`undefined` and `""` are falsy, every other string is truthy. -/
def strTruthy : Option String → Bool
  | none => false
  | some s => !(s == "")

/-- Truthiness of a JavaScript number that may be `NaN` (modelled as
`none`): `NaN` and `0` are falsy. -/
def numTruthy : Option ℚ → Bool
  | none => false
  | some q => decide (q ≠ 0)

/-- The JavaScript `x || null` idiom applied to a possibly-`NaN`
number: `NaN` and `0` are collapsed to `null`. -/
def jsNumOrNull : Option ℚ → Option ℚ
  | none => none
  | some q => if q = 0 then none else some q

/-- Whether the list `s` starts with the list `pat` (character-wise). -/
def listStartsWith : List Char → List Char → Bool
  | _, [] => true
  | [], _ :: _ => false
  | a :: as, b :: bs => a == b && listStartsWith as bs

/-- Whether `pat` occurs contiguously inside `s`. -/
def listHasInfix : List Char → List Char → Bool
  | [], pat => pat.isEmpty
  | a :: rest, pat => listStartsWith (a :: rest) pat || listHasInfix rest pat

/-- JavaScript `String.prototype.includes`. -/
def jsIncludes (s pat : String) : Bool :=
  listHasInfix s.data pat.data

/-- JavaScript `String.prototype.toLowerCase` (character-wise, which
agrees with it on the ASCII addresses involved). -/
def jsToLower (s : String) : String :=
  String.mk (s.data.map Char.toLower)

/-- Consume a maximal run of decimal digits, returning the
accumulated value, the number of digits consumed, and the rest. -/
def parseDigits : List Char → Nat → Nat → Nat × Nat × List Char
  | [], v, n => (v, n, [])
  | c :: cs, v, n =>
    if c.isDigit then parseDigits cs (10 * v + (c.toNat - 48)) (n + 1)
    else (v, n, c :: cs)

/-- JavaScript `parseFloat`, restricted to plain decimal literals with
an optional sign and fractional part (the only shapes the application
feeds it): `none` models a `NaN` result on non-numeric input.  The
value `sign * (ipart + fpart / 10 ^ fcount)` is built with `mkRat` so
that it reduces during elaboration (`Rat.mul` and friends are marked
irreducible). -/
def parseFloat (s : String) : Option ℚ :=
  let (sign, cs) : Int × List Char :=
    match s.data with
    | '-' :: r => (-1, r)
    | '+' :: r => (1, r)
    | cs => (1, cs)
  let (ipart, icount, rest) := parseDigits cs 0 0
  match rest with
  | '.' :: r =>
    let (fpart, fcount, _) := parseDigits r 0 0
    if icount = 0 && fcount = 0 then none
    else some (mkRat (sign * ((ipart : Int) * 10 ^ fcount + fpart)) (10 ^ fcount))
  | _ => if icount = 0 then none else some (mkRat (sign * (ipart : Int)) 1)

/-! ### ZoneClassifier (zoneConfig.js) -/

/-- `ZONE_CONFIG`: the five statically configured zones, in source
(insertion) order, each with its keyword list. -/
def ZONE_CONFIG : List (String × List String) :=
  [ ("Zone 1 - North Gonda",
      ["station", "civil lines", "railway", "nehru", "gandhi nagar", "north"]),
    ("Zone 2 - South Gonda",
      ["colonelganj", "mankapur", "katra", "kotwali", "south"]),
    ("Zone 3 - East Gonda",
      ["paraspur", "itiathok", "wazirganj", "tarabganj", "east"]),
    ("Zone 4 - West Gonda",
      ["bahraich", "jhilahi", "nawabganj", "west"]),
    ("Zone 5 - Central Gonda",
      ["city center", "sadar", "collectorate", "old city", "center", "central"]) ]

/-- The five zone names, in configuration order. -/
def zoneNames : List String := ZONE_CONFIG.map Prod.fst

/-- The keyword scan of `detectZone`: first zone (in configuration
order) one of whose keywords occurs in the lower-cased address. -/
def findZone (addressLower : String) : List (String × List String) → Option String
  | [] => none
  | (zoneName, config) :: rest =>
    if config.any (fun keyword => jsIncludes addressLower keyword) then some zoneName
    else findZone addressLower rest

/-- `detectZone(address)`: keyword-based classification with the
central zone as default for falsy addresses and failed matches. -/
def detectZone (address : Option String) : String :=
  if !strTruthy address then "Zone 5 - Central Gonda"
  else
    match findZone (jsToLower (address.getD "")) ZONE_CONFIG with
    | some zoneName => zoneName
    | none => "Zone 5 - Central Gonda"

/-- Coordinate threshold `27.15`, written with `mkRat` so comparisons
against it reduce. -/
def latNorth : ℚ := mkRat 2715 100

/-- Coordinate threshold `27.10`. -/
def latSouth : ℚ := mkRat 2710 100

/-- Coordinate threshold `81.98`. -/
def lngEast : ℚ := mkRat 8198 100

/-- Coordinate threshold `81.95`. -/
def lngWest : ℚ := mkRat 8195 100

/-- `detectZoneFromCoordinates(lat, lng)`: threshold-based
classification; returns `null` when either coordinate is falsy
(`NaN` or `0`). -/
def detectZoneFromCoordinates (lat lng : Option ℚ) : Option String :=
  if !numTruthy lat || !numTruthy lng then none
  else if lat.getD 0 > latNorth then some "Zone 1 - North Gonda"
  else if lat.getD 0 < latSouth then some "Zone 2 - South Gonda"
  else if lng.getD 0 > lngEast then some "Zone 3 - East Gonda"
  else if lng.getD 0 < lngWest then some "Zone 4 - West Gonda"
  else some "Zone 5 - Central Gonda"

/-- Zone assignment as performed inline by the `/api/report` handler:
the address, when truthy, is classified by `detectZone` alone; only
when the address is falsy and both raw coordinate fields are truthy is
`detectZoneFromCoordinates` consulted, its `null` falling back to the
default central zone. -/
def assignZone (address lat lng : Option String) : String :=
  if strTruthy address then detectZone address
  else if strTruthy lat && strTruthy lng then
    match detectZoneFromCoordinates (parseFloat (lat.getD "")) (parseFloat (lng.getD "")) with
    | some gpsZone => gpsZone
    | none => "Zone 5 - Central Gonda"
  else "Zone 5 - Central Gonda"

/-! ### StreakTracker (inline in the `/api/report` handler) -/

/-- Milliseconds per day, the divisor `1000 * 60 * 60 * 24`. -/
def msPerDay : Int := 86400000

/-- `setHours(0, 0, 0, 0)`: truncate an epoch-millisecond instant to
the start of its calendar day. -/
def truncToDay (t : Int) : Int :=
  (Int.fdiv t msPerDay) * msPerDay

/-- `daysDiff`: `Math.floor((today - lastDate) / msPerDay)` applied to
the two day-truncated instants. -/
def daysDiff (now lastReportDate : Int) : Int :=
  Int.fdiv (truncToDay now - truncToDay lastReportDate) msPerDay

/-- The streak-relevant state of a `User` document. -/
structure User where
  currentStreak : Nat
  longestStreak : Nat
  lastReportDate : Option Int
deriving DecidableEq

/-- The new streak value chosen by the `/api/report` handler: continue
on a whole-day gap of exactly 1, reset on a gap greater than 1, leave
unchanged otherwise (in particular on a same-day repeat), start at 1
with no prior report. -/
def newStreakOf (u : User) (now : Int) : Nat :=
  match u.lastReportDate with
  | some last =>
    let d := daysDiff now last
    if d = 1 then u.currentStreak + 1
    else if d > 1 then 1
    else u.currentStreak
  | none => 1

/-- The streak update performed by the `/api/report` handler: install
the new streak, raise `longestStreak` if beaten, and stamp
`lastReportDate` with the submission instant unconditionally. -/
def updateStreak (u : User) (now : Int) : User :=
  { currentStreak := newStreakOf u now
    longestStreak :=
      if newStreakOf u now > u.longestStreak then newStreakOf u now else u.longestStreak
    lastReportDate := some now }

/-- The streak multiplier, a pure function of the updated streak:
`>= 7 → 3`, `>= 3 → 2`, otherwise `1`. -/
def streakMultiplierOf (streak : Nat) : Nat :=
  if streak ≥ 7 then 3 else if streak ≥ 3 then 2 else 1

/-! ### CreditLedger (Credit model plus handler mutations) -/

/-- `CREDIT_ACTIONS.REPORT_SUBMITTED`. -/
def REPORT_SUBMITTED : Nat := 10

/-- `CREDIT_ACTIONS.REPORT_VERIFIED`. -/
def REPORT_VERIFIED : Nat := 20

/-- `CREDIT_ACTIONS.HIGH_QUALITY_REPORT`. -/
def HIGH_QUALITY_REPORT : Nat := 30

/-- `CREDIT_ACTIONS.FIRST_REPORT`, posted as the signup welcome bonus. -/
def FIRST_REPORT : Nat := 50

/-- A transaction's `type` tag. -/
inductive TxType where
  | earned
  | bonus
  | redeemed
deriving DecidableEq

/-- One entry of a credit account's `transactions` array. -/
structure Transaction where
  type : TxType
  amount : Int
  description : String
deriving DecidableEq

/-- One entry of a credit account's `badges` array. -/
structure Badge where
  key : String
  name : String
  icon : String
  earnedAt : Int
deriving DecidableEq

/-- Which account counter a badge criterion reads. -/
inductive BadgeField where
  | reportCount
  | totalCredits
deriving DecidableEq

/-- One entry of the `BADGE_CRITERIA` catalog. -/
structure BadgeDef where
  key : String
  name : String
  icon : String
  threshold : Nat
  field : BadgeField
deriving DecidableEq

/-- The `BADGE_CRITERIA` catalog, in source order. -/
def BADGE_CRITERIA : List BadgeDef :=
  [ ⟨"first_report", "First Step", "🌱", 1, BadgeField.reportCount⟩,
    ⟨"eco_warrior", "Eco Warrior", "♻️", 10, BadgeField.reportCount⟩,
    ⟨"green_champion", "Green Champion", "🏆", 50, BadgeField.reportCount⟩,
    ⟨"planet_hero", "Planet Hero", "🌍", 100, BadgeField.reportCount⟩,
    ⟨"credit_collector", "Credit Collector", "💰", 500, BadgeField.totalCredits⟩,
    ⟨"elite_guardian", "Elite Guardian", "👑", 1000, BadgeField.totalCredits⟩ ]

/-- A `Credit` document. -/
structure CreditAccount where
  totalCredits : Int
  availableCredits : Int
  badges : List Badge
  transactions : List Transaction
  reportCount : Nat
  reportsVerified : Nat
deriving DecidableEq

/-- The credit account created at signup: total and available both
equal to the welcome bonus, which is also posted as the first
transaction. -/
def initialAccount : CreditAccount :=
  { totalCredits := (FIRST_REPORT : Int)
    availableCredits := (FIRST_REPORT : Int)
    badges := []
    transactions := [⟨TxType.bonus, (FIRST_REPORT : Int), "Welcome bonus! 🎉"⟩]
    reportCount := 0
    reportsVerified := 0 }

/-- The counter `creditAccount[badge.field]` read by a badge criterion. -/
def counterValue (a : CreditAccount) : BadgeField → Int
  | BadgeField.reportCount => (a.reportCount : Int)
  | BadgeField.totalCredits => a.totalCredits

/-- The base-credit posting of the `/api/report` handler: bump both
balances and the report counter and append one `earned` transaction. -/
def applyEarnedCredits (a : CreditAccount) (creditsEarned : Nat) (desc : String) :
    CreditAccount :=
  { a with
    totalCredits := a.totalCredits + (creditsEarned : Int)
    availableCredits := a.availableCredits + (creditsEarned : Int)
    reportCount := a.reportCount + 1
    transactions := a.transactions ++ [⟨TxType.earned, (creditsEarned : Int), desc⟩] }

/-- The streak-bonus posting of the `/api/report` handler, guarded by
`streakBonus > 0`: bump both balances and append one `bonus`
transaction; append nothing when the bonus is zero. -/
def applyStreakBonus (a : CreditAccount) (streakBonus : Nat) (desc : String) :
    CreditAccount :=
  if streakBonus > 0 then
    { a with
      totalCredits := a.totalCredits + (streakBonus : Int)
      availableCredits := a.availableCredits + (streakBonus : Int)
      transactions := a.transactions ++ [⟨TxType.bonus, (streakBonus : Int), desc⟩] }
  else a

/-- The verification bonus posted by the admin status-update handler
when a pending report becomes verified. -/
def applyVerifiedBonus (a : CreditAccount) (desc : String) : CreditAccount :=
  { a with
    totalCredits := a.totalCredits + (REPORT_VERIFIED : Int)
    availableCredits := a.availableCredits + (REPORT_VERIFIED : Int)
    reportsVerified := a.reportsVerified + 1
    transactions := a.transactions ++ [⟨TxType.bonus, REPORT_VERIFIED, desc⟩] }

/-- The account mutation of the `/api/redeem` handler: `none` models
the insufficient-credits rejection (the handler then leaves the
account untouched); otherwise only `availableCredits` shrinks and one
`redeemed` transaction of amount `-cost` is appended. -/
def redeemAccount (a : CreditAccount) (cost : Int) (name : String) :
    Option CreditAccount :=
  if a.availableCredits < cost then none
  else some
    { a with
      availableCredits := a.availableCredits - cost
      transactions := a.transactions ++ [⟨TxType.redeemed, -cost, "Redeemed: " ++ name⟩] }

/-! ### BadgeEngine (inline in the `/api/report` handler) -/

/-- The badge appended on unlock. -/
def mkBadge (b : BadgeDef) (now : Int) : Badge :=
  ⟨b.key, b.name, b.icon, now⟩

/-- `creditAccount.badges.some(b => b.key === badge.key)`. -/
def hasBadgeKey (a : CreditAccount) (key : String) : Bool :=
  a.badges.any (fun b => b.key == key)

/-- The badge loop of the `/api/report` handler: walk the catalog in
order, appending each badge whose key is not yet held and whose
counter meets its threshold, and collect the newly unlocked
definitions in catalog order. -/
def evalBadges (now : Int) : List BadgeDef → CreditAccount → CreditAccount × List BadgeDef
  | [], a => (a, [])
  | b :: rest, a =>
    if !hasBadgeKey a b.key && decide (counterValue a b.field ≥ (b.threshold : Int)) then
      let a' := { a with badges := a.badges ++ [mkBadge b now] }
      let out := evalBadges now rest a'
      (out.1, b :: out.2)
    else evalBadges now rest a

/-! ### ReportSubmissionOrchestrator (`/api/report`) and `/api/redeem` -/

/-- A persisted `Report` document (the fields written at creation). -/
structure Report where
  reportId : Nat
  description : String
  photoUrl : Option String
  lat : Option ℚ
  lng : Option ℚ
  address : Option String
  assignedZone : String
  wasteCategory : Option String
  disposalMethod : Option String
  qualityScore : Nat
  status : String
deriving DecidableEq

/-- The multipart submission fields consumed by the handler:
`req.body` strings (absent modelled as `none`) and the optional
uploaded photo's filename (`req.file`). -/
structure Submission where
  description : Option String
  lat : Option String
  lng : Option String
  address : Option String
  wasteCategory : Option String
  disposalMethod : Option String
  photo : Option String
deriving DecidableEq

/-- The quality score: `+30` photo, `+30` both raw coordinate fields
truthy, `+20` description longer than 20 characters, `+10` category,
`+10` disposal method. -/
def qualityScoreOf (sub : Submission) : Nat :=
  (if sub.photo.isSome then 30 else 0) +
  (if strTruthy sub.lat && strTruthy sub.lng then 30 else 0) +
  (if strTruthy sub.description && decide ((sub.description.getD "").length > 20) then 20 else 0) +
  (if strTruthy sub.wasteCategory then 10 else 0) +
  (if strTruthy sub.disposalMethod then 10 else 0)

/-- Base credits: the fixed submission reward plus the high-quality
bonus exactly when the quality score reaches 80. -/
def baseCreditsOf (qualityScore : Nat) : Nat :=
  REPORT_SUBMITTED + (if qualityScore ≥ 80 then HIGH_QUALITY_REPORT else 0)

/-- The largest `reportId` among the persisted reports
(`Report.findOne().sort({reportId: -1})`), `none` when none exist. -/
def maxReportId : List Report → Option Nat
  | [] => none
  | r :: rest =>
    some (match maxReportId rest with
      | none => r.reportId
      | some m => max r.reportId m)

/-- The assigned sequence id: `lastReport ? lastReport.reportId + 1 : 1001`. -/
def nextReportId (reports : List Report) : Nat :=
  match maxReportId reports with
  | none => 1001
  | some m => m + 1

/-- The `Report` document built and saved by the handler. -/
def buildReport (reports : List Report) (sub : Submission) : Report :=
  { reportId := nextReportId reports
    description := sub.description.getD ""
    photoUrl := sub.photo.map (fun f => "/uploads/" ++ f)
    lat := jsNumOrNull (parseFloat (sub.lat.getD ""))
    lng := jsNumOrNull (parseFloat (sub.lng.getD ""))
    address := sub.address
    assignedZone := assignZone sub.address sub.lat sub.lng
    wasteCategory := sub.wasteCategory
    disposalMethod := sub.disposalMethod
    qualityScore := qualityScoreOf sub
    status := "pending" }

/-- The consolidated success payload of the `/api/report` handler. -/
structure SubmitResult where
  reportId : Nat
  assignedZone : String
  creditsEarned : Nat
  baseCredits : Nat
  streakBonus : Nat
  streak : Nat
  streakMultiplier : Nat
  longestStreak : Nat
  qualityScore : Nat
  newBadges : List BadgeDef
deriving DecidableEq

/-- The state a submission touches: the reports collection, the
submitting user, and the user's credit account (`none` models a
missing `Credit` document). -/
structure ServerState where
  reports : List Report
  user : User
  account : Option CreditAccount
deriving DecidableEq

/-- The post-validation body of the `/api/report` handler with the
credit account present: save the report, update the streak, post base
and (when positive) streak-bonus transactions, run the badge loop,
and assemble the response payload. -/
def submitCore (reports : List Report) (user : User) (acc : CreditAccount)
    (sub : Submission) (now : Int) :
    List Report × User × CreditAccount × SubmitResult :=
  let report := buildReport reports sub
  let creditsEarned := baseCreditsOf report.qualityScore
  let user' := updateStreak user now
  let streakMultiplier := streakMultiplierOf user'.currentStreak
  let streakBonus := creditsEarned * (streakMultiplier - 1)
  let acc1 := applyEarnedCredits acc creditsEarned
    ("Report #" ++ toString report.reportId ++ " - " ++ report.assignedZone)
  let acc2 := applyStreakBonus acc1 streakBonus
    ("🔥 " ++ toString user'.currentStreak ++ "-day streak! (" ++
      toString streakMultiplier ++ "X)")
  let ev := evalBadges now BADGE_CRITERIA acc2
  (reports ++ [report], user', ev.1,
    { reportId := report.reportId
      assignedZone := report.assignedZone
      creditsEarned := creditsEarned + streakBonus
      baseCredits := creditsEarned
      streakBonus := streakBonus
      streak := user'.currentStreak
      streakMultiplier := streakMultiplier
      longestStreak := user'.longestStreak
      qualityScore := report.qualityScore
      newBadges := ev.2 })

/-- The full `/api/report` handler: the fail-fast description check
(before any mutation), then report save and streak update, then — only
if the credit account exists — the ledger and badge phase.  A missing
account aborts with the report and user already persisted, as in the
source. -/
def submitReport (st : ServerState) (sub : Submission) (now : Int) :
    ServerState × Except String SubmitResult :=
  if !strTruthy sub.description || decide ((sub.description.getD "").trim.length < 10) then
    (st, Except.error "Description must be at least 10 characters")
  else
    match st.account with
    | none =>
      ({ st with
          reports := st.reports ++ [buildReport st.reports sub]
          user := updateStreak st.user now },
        Except.error "Credit account not found")
    | some acc =>
      let out := submitCore st.reports st.user acc sub now
      ({ reports := out.1, user := out.2.1, account := some out.2.2.1 },
        Except.ok out.2.2.2)

/-- The `/api/redeem` handler: missing account and insufficient
credits both reject with the state unchanged; otherwise the redeemed
account is saved and the new available balance returned. -/
def redeemEndpoint (st : ServerState) (cost : Int) (name : String) :
    ServerState × Except String Int :=
  match st.account with
  | none => (st, Except.error "Credit account not found")
  | some acc =>
    match redeemAccount acc cost name with
    | none => (st, Except.error "Insufficient credits")
    | some acc' => ({ st with account := some acc' }, Except.ok acc'.availableCredits)

/-! ### Ledger operation sequences (for the invariant claim) -/

/-- One account-mutating operation of the credit ledger: the award
phase of a report submission (base credits plus optional streak
bonus), the admin verification bonus, or a redemption.  Submission
awards carry the two already-computed non-negative amounts. -/
inductive LedgerOp where
  | submitOp (creditsEarned streakBonus : Nat) (earnDesc bonusDesc : String)
  | verifyOp (desc : String)
  | redeemOp (cost : Int) (name : String)
deriving DecidableEq

/-- Apply one operation; a rejected redemption leaves the account
unchanged, exactly as the handler does. -/
def applyOp (a : CreditAccount) : LedgerOp → CreditAccount
  | LedgerOp.submitOp creditsEarned streakBonus earnDesc bonusDesc =>
    applyStreakBonus (applyEarnedCredits a creditsEarned earnDesc) streakBonus bonusDesc
  | LedgerOp.verifyOp desc => applyVerifiedBonus a desc
  | LedgerOp.redeemOp cost name =>
    match redeemAccount a cost name with
    | some a' => a'
    | none => a

/-- Apply a sequence of operations in order. -/
def applyOps (ops : List LedgerOp) (a : CreditAccount) : CreditAccount :=
  ops.foldl applyOp a

/-- The ledger invariant: the spendable balance never exceeds the
lifetime total. -/
def ledgerInv (a : CreditAccount) : Prop :=
  a.availableCredits ≤ a.totalCredits

/-- A redemption request with a non-negative cost (the shape every
reward in the client catalog has; the endpoint itself does not check
this). -/
def opOk : LedgerOp → Prop
  | LedgerOp.redeemOp cost _ => 0 ≤ cost
  | _ => True

/-! ### Concrete fixtures used by witnesses and counterexamples -/

/-- A fresh server state: no reports, a user who has never reported,
and the signup-time credit account. -/
def stEmpty : ServerState :=
  { reports := [], user := ⟨0, 0, none⟩, account := some initialAccount }

/-- A submission with every optional field missing. -/
def subNoDesc : Submission :=
  ⟨none, none, none, none, none, none, none⟩

/-- A fully populated submission: photo, in-range coordinates, a
description longer than 20 characters, category and disposal method. -/
def subFull : Submission :=
  { description := some "Large waste pile near the eastern drain, needs pickup"
    lat := some "27.12"
    lng := some "81.96"
    address := none
    wasteCategory := some "plastic"
    disposalMethod := some "recycle"
    photo := some "pile.jpg" }

/-! ### Helper lemmas -/

theorem findZone_mem {s : String} {l : List (String × List String)} {z : String}
    (h : findZone s l = some z) : z ∈ l.map Prod.fst := by
  induction l with
  | nil => simp [findZone] at h
  | cons p rest ih =>
    rw [findZone] at h
    split at h
    · simp_all
    · simpa using Or.inr (ih h)

theorem detectZone_mem (address : Option String) : detectZone address ∈ zoneNames := by
  unfold detectZone
  split
  · decide
  · split
    · next h => exact findZone_mem h
    · decide

theorem detectZoneFromCoordinates_mem {lat lng : Option ℚ} {z : String}
    (h : detectZoneFromCoordinates lat lng = some z) : z ∈ zoneNames := by
  unfold detectZoneFromCoordinates at h
  split_ifs at h <;> (injection h with h; subst h; decide)

theorem assignZone_mem (address lat lng : Option String) :
    assignZone address lat lng ∈ zoneNames := by
  unfold assignZone
  split
  · exact detectZone_mem address
  · split
    · split
      · next h => exact detectZoneFromCoordinates_mem h
      · decide
    · decide

theorem mem_le_maxReportId {r : Report} {reports : List Report} (h : r ∈ reports) :
    ∃ m, maxReportId reports = some m ∧ r.reportId ≤ m := by
  induction reports with
  | nil => cases h
  | cons a rest ih =>
    rcases List.mem_cons.mp h with h | h
    · subst h
      refine ⟨_, rfl, ?_⟩
      cases hm : maxReportId rest <;> simp [hm, le_max_iff]
    · obtain ⟨m, hm, hle⟩ := ih h
      exact ⟨max a.reportId m, by simp [maxReportId, hm], le_trans hle (le_max_right _ _)⟩

theorem mem_lt_nextReportId {r : Report} {reports : List Report} (h : r ∈ reports) :
    r.reportId < nextReportId reports := by
  obtain ⟨m, hm, hle⟩ := mem_le_maxReportId h
  unfold nextReportId
  rw [hm]
  show r.reportId < m + 1
  omega

theorem evalBadges_counters (now : Int) (l : List BadgeDef) (a : CreditAccount) :
    (evalBadges now l a).1.reportCount = a.reportCount ∧
    (evalBadges now l a).1.totalCredits = a.totalCredits ∧
    (evalBadges now l a).1.transactions = a.transactions ∧
    (evalBadges now l a).1.availableCredits = a.availableCredits ∧
    (evalBadges now l a).1.reportsVerified = a.reportsVerified := by
  induction l generalizing a with
  | nil => exact ⟨rfl, rfl, rfl, rfl, rfl⟩
  | cons b rest ih =>
    rw [evalBadges]
    split
    · exact ih _
    · exact ih a

theorem evalBadges_counterValue (now : Int) (l : List BadgeDef) (a : CreditAccount)
    (f : BadgeField) : counterValue (evalBadges now l a).1 f = counterValue a f := by
  cases f <;>
    simp [counterValue, (evalBadges_counters now l a).1, (evalBadges_counters now l a).2.1]

theorem evalBadges_mono (now : Int) (l : List BadgeDef) (a : CreditAccount) (k : String)
    (h : hasBadgeKey a k = true) : hasBadgeKey (evalBadges now l a).1 k = true := by
  induction l generalizing a with
  | nil => exact h
  | cons b rest ih =>
    rw [evalBadges]
    split
    · apply ih
      unfold hasBadgeKey at h ⊢
      simp only [List.any_append, h, Bool.true_or]
    · exact ih a h

theorem evalBadges_complete (now : Int) (l : List BadgeDef) (a : CreditAccount) :
    ∀ b ∈ l, counterValue a b.field ≥ (b.threshold : Int) →
      hasBadgeKey (evalBadges now l a).1 b.key = true := by
  induction l generalizing a with
  | nil => intro b hb; cases hb
  | cons c rest ih =>
    intro b hb hthr
    rw [evalBadges]
    rcases List.mem_cons.mp hb with hb | hb
    · subst hb
      split
      · apply evalBadges_mono
        unfold hasBadgeKey
        simp [mkBadge]
      · next hcond =>
        apply evalBadges_mono
        rcases hk : hasBadgeKey a b.key with _ | _
        · exact absurd (by simp [hk, hthr]) hcond
        · rfl
    · split
      · exact ih _ b hb hthr
      · exact ih a b hb hthr

theorem evalBadges_stable (now : Int) (l : List BadgeDef) (a : CreditAccount)
    (h : ∀ b ∈ l, counterValue a b.field ≥ (b.threshold : Int) → hasBadgeKey a b.key = true) :
    evalBadges now l a = (a, []) := by
  induction l with
  | nil => rfl
  | cons b rest ih =>
    rw [evalBadges]
    have hcond :
        (!hasBadgeKey a b.key && decide (counterValue a b.field ≥ (b.threshold : Int))) = false := by
      rcases hk : hasBadgeKey a b.key with _ | _
      · have : ¬ counterValue a b.field ≥ (b.threshold : Int) := fun hge => by
          have := h b (List.mem_cons_self b rest) hge
          rw [hk] at this
          cases this
        simp [hk, this]
      · simp [hk]
    rw [hcond]
    exact ih fun b' hb' => h b' (List.mem_cons_of_mem b hb')

theorem evalBadges_nodup (now : Int) (l : List BadgeDef) (a : CreditAccount)
    (h : (a.badges.map Badge.key).Nodup) :
    ((evalBadges now l a).1.badges.map Badge.key).Nodup := by
  induction l generalizing a with
  | nil => exact h
  | cons b rest ih =>
    rw [evalBadges]
    split
    · next hcond =>
      apply ih
      have hk : hasBadgeKey a b.key = false := by
        rcases hk : hasBadgeKey a b.key with _ | _
        · rfl
        · rw [hk] at hcond
          cases hcond
      have hnotmem : b.key ∉ a.badges.map Badge.key := by
        unfold hasBadgeKey at hk
        rw [List.any_eq_false] at hk
        intro hmem
        obtain ⟨x, hx, hxk⟩ := List.mem_map.mp hmem
        exact hk x hx (by simp [hxk])
      simp only [List.map_append, mkBadge, List.map_cons, List.map_nil]
      exact List.Nodup.append h (List.nodup_singleton _)
        (by simpa [List.disjoint_singleton] using hnotmem)
    · exact ih a h

/-! ### Claims -/

/-- C1: on every accepted submission, a user with no prior
`lastReportDate` gets streak 1; a whole-day difference of 1 increments
the streak, greater than 1 resets it to 1, and 0 leaves it unchanged;
`longestStreak` becomes the maximum of its old value and the new
streak; and `lastReportDate` is set to the submission instant
unconditionally. -/
theorem streak_update_on_submission (u : User) (now : Int) :
    (u.lastReportDate = none → (updateStreak u now).currentStreak = 1) ∧
    (∀ last, u.lastReportDate = some last →
      (daysDiff now last = 1 →
        (updateStreak u now).currentStreak = u.currentStreak + 1) ∧
      (daysDiff now last > 1 → (updateStreak u now).currentStreak = 1) ∧
      (daysDiff now last = 0 → (updateStreak u now).currentStreak = u.currentStreak)) ∧
    (updateStreak u now).longestStreak =
      max u.longestStreak (updateStreak u now).currentStreak ∧
    (updateStreak u now).lastReportDate = some now := by
  refine ⟨fun h => by simp [updateStreak, newStreakOf, h], fun last h => ?_, ?_, rfl⟩
  · refine ⟨fun hd => ?_, fun hd => ?_, fun hd => ?_⟩ <;>
      simp only [updateStreak, newStreakOf, h] <;> split_ifs <;> omega
  · show (if newStreakOf u now > u.longestStreak then newStreakOf u now
      else u.longestStreak) = max u.longestStreak (newStreakOf u now)
    split <;> omega

/-- Witness for C1 at a concrete user: streak 2 with `lastReportDate`
yesterday becomes 3 when submitting today. -/
theorem streak_update_on_submission_witness :
    (updateStreak ⟨2, 5, some 0⟩ msPerDay).currentStreak = 2 + 1 :=
  ((streak_update_on_submission ⟨2, 5, some 0⟩ msPerDay).2.1 0 rfl).1 (by decide)

/-- C9: a submission whose description is missing or shorter than 10
characters after trimming is rejected with the validation error and
the entire state — reports, user streak, credit account — is returned
unchanged. -/
theorem validation_fail_fast (st : ServerState) (sub : Submission) (now : Int)
    (h : strTruthy sub.description = false ∨ (sub.description.getD "").trim.length < 10) :
    submitReport st sub now =
      (st, Except.error "Description must be at least 10 characters") := by
  unfold submitReport
  rcases h with h | h <;> simp [h]

/-- Witness for C9: a submission with no description at all is
rejected and the fresh state is untouched. -/
theorem validation_fail_fast_witness :
    submitReport stEmpty subNoDesc 0 =
      (stEmpty, Except.error "Description must be at least 10 characters") :=
  validation_fail_fast stEmpty subNoDesc 0 (Or.inl rfl)

/-- C10: the first report is assigned id 1001; every later one gets
the current maximum id plus 1, hence a strictly larger id than every
persisted report, and it is appended with exactly that id — so ids
strictly increase across sequential submissions. -/
theorem report_id_seeding (reports : List Report) (user : User) (acc : CreditAccount)
    (sub : Submission) (now : Int) :
    (reports = [] → (submitCore reports user acc sub now).2.2.2.reportId = 1001) ∧
    (∀ r ∈ reports, r.reportId < (submitCore reports user acc sub now).2.2.2.reportId) ∧
    (submitCore reports user acc sub now).1 = reports ++ [buildReport reports sub] ∧
    (buildReport reports sub).reportId = (submitCore reports user acc sub now).2.2.2.reportId := by
  refine ⟨fun h => by subst h; rfl, fun r hr => ?_, rfl, rfl⟩
  exact mem_lt_nextReportId hr

/-- Witness for C10: on an empty report collection a concrete valid
submission is assigned id 1001, and against a collection holding id
1001 the listed ids are all smaller than the next assigned id. -/
theorem report_id_seeding_witness :
    (submitCore [] ⟨0, 0, none⟩ initialAccount subFull 0).2.2.2.reportId = 1001 :=
  (report_id_seeding [] ⟨0, 0, none⟩ initialAccount subFull 0).1 rfl

/-- C8: the badge loop appends a badge only when its key is not yet
held and its counter meets the threshold; consequently a duplicate-free
badge list stays duplicate-free, and running the engine again with no
counter change unlocks nothing and leaves the account untouched. -/
theorem badge_idempotence (a : CreditAccount) (now1 now2 : Int)
    (h : (a.badges.map Badge.key).Nodup) :
    ((evalBadges now1 BADGE_CRITERIA a).1.badges.map Badge.key).Nodup ∧
    evalBadges now2 BADGE_CRITERIA (evalBadges now1 BADGE_CRITERIA a).1 =
      ((evalBadges now1 BADGE_CRITERIA a).1, []) := by
  refine ⟨evalBadges_nodup now1 BADGE_CRITERIA a h, ?_⟩
  apply evalBadges_stable
  intro b hb hthr
  rw [evalBadges_counterValue now1 BADGE_CRITERIA a b.field] at hthr
  exact evalBadges_complete now1 BADGE_CRITERIA a b hb hthr

/-- Witness for C8 at an account that has just earned its first report
credits: the first pass unlocks `first_report`, the second pass
unlocks nothing and changes nothing. -/
theorem badge_idempotence_witness :
    evalBadges 1 BADGE_CRITERIA
        (evalBadges 0 BADGE_CRITERIA (applyEarnedCredits initialAccount 40 "Report #1001")).1 =
      ((evalBadges 0 BADGE_CRITERIA (applyEarnedCredits initialAccount 40 "Report #1001")).1, []) :=
  (badge_idempotence (applyEarnedCredits initialAccount 40 "Report #1001") 0 1 (by decide)).2

theorem redeemAccount_le {a : CreditAccount} {cost : Int} {name : String}
    {a' : CreditAccount} (h : redeemAccount a cost name = some a') :
    cost ≤ a.availableCredits := by
  unfold redeemAccount at h
  split_ifs at h with hlt
  omega

theorem applyOp_inv {a : CreditAccount} {op : LedgerOp} (hinv : ledgerInv a)
    (hok : opOk op) : ledgerInv (applyOp a op) := by
  unfold ledgerInv at hinv ⊢
  cases op with
  | submitOp creditsEarned streakBonus earnDesc bonusDesc =>
    dsimp only [applyOp, applyStreakBonus, applyEarnedCredits]
    split_ifs <;> dsimp only <;> omega
  | verifyOp desc =>
    dsimp only [applyOp, applyVerifiedBonus]
    omega
  | redeemOp cost name =>
    unfold opOk at hok
    dsimp only [applyOp]
    cases hr : redeemAccount a cost name with
    | none => exact hinv
    | some a2 =>
      unfold redeemAccount at hr
      split_ifs at hr with hlt
      injection hr with hr
      subst hr
      dsimp only
      omega

theorem applyOps_inv {ops : List LedgerOp} {a : CreditAccount}
    (hops : ∀ op ∈ ops, opOk op) (hinv : ledgerInv a) :
    ledgerInv (applyOps ops a) := by
  induction ops generalizing a with
  | nil => exact hinv
  | cons op rest ih =>
    exact ih (fun o ho => hops o (List.mem_cons_of_mem op ho))
      (applyOp_inv hinv (hops op (List.mem_cons_self op rest)))

/-- C3 (amended): starting from the signup account (total = available
= welcome bonus), any sequence of submission awards, verification
bonuses and redemptions with non-negative costs keeps
`availableCredits ≤ totalCredits` after every prefix, and a redemption
never succeeds when its cost exceeds the available balance.  The
non-negativity restriction is forced: the endpoint does not validate
`cost`, and a negative cost breaks the invariant (see the
counterexample). -/
theorem ledger_invariant (ops : List LedgerOp) (h : ∀ op ∈ ops, opOk op) :
    (∀ n, ledgerInv (applyOps (ops.take n) initialAccount)) ∧
    (∀ a cost name a', redeemAccount a cost name = some a' →
      cost ≤ a.availableCredits) := by
  refine ⟨fun n => ?_, fun a cost name a' hr => redeemAccount_le hr⟩
  exact applyOps_inv (fun op ho => h op (List.take_subset n ops ho))
    (by unfold ledgerInv initialAccount; decide)

/-- Witness for C3: a concrete submission award, verification bonus
and affordable redemption keep the invariant. -/
theorem ledger_invariant_witness :
    ledgerInv (applyOps
      (([ LedgerOp.submitOp 40 80 "Report #1001 - Zone 5 - Central Gonda" "streak",
          LedgerOp.verifyOp "Report #1001 verified by admin",
          LedgerOp.redeemOp 50 "Tree Sapling" ]).take 3) initialAccount) :=
  (ledger_invariant
    [ LedgerOp.submitOp 40 80 "Report #1001 - Zone 5 - Central Gonda" "streak",
      LedgerOp.verifyOp "Report #1001 verified by admin",
      LedgerOp.redeemOp 50 "Tree Sapling" ]
    (by intro op ho
        simp only [List.mem_cons, List.not_mem_nil, or_false] at ho
        rcases ho with rfl | rfl | rfl <;> simp [opOk])).1 3

/-- Counterexample for C3 as stated: the redeem endpoint accepts a
negative cost straight from the request body, and a single redemption
of cost −100 on a fresh account drives `availableCredits` to 150
while `totalCredits` stays 50, violating `available ≤ total`. -/
theorem ledger_invariant_counterexample :
    ¬ ledgerInv (applyOps [LedgerOp.redeemOp (-100) "negative-cost reward"] initialAccount) := by
  unfold ledgerInv
  decide

/-- C4 (amended): with the account present, redemption fails with the
insufficient-credits error exactly when `availableCredits < cost`, and
on failure the whole state is returned unchanged (no transaction
appended); on success `availableCredits` drops by `cost`,
`totalCredits` is untouched, and one `redeemed` transaction of amount
`-cost` is appended (negative exactly when the cost is positive — the
endpoint does not validate the sign of `cost`, see the
counterexample). -/
theorem redemption_semantics (st : ServerState) (a : CreditAccount) (cost : Int)
    (name : String) (hacc : st.account = some a) :
    (a.availableCredits < cost →
      redeemEndpoint st cost name = (st, Except.error "Insufficient credits")) ∧
    (¬ a.availableCredits < cost →
      redeemEndpoint st cost name =
        ({ st with account := some ({ a with
              availableCredits := a.availableCredits - cost
              transactions := a.transactions ++
                [⟨TxType.redeemed, -cost, "Redeemed: " ++ name⟩] }) },
          Except.ok (a.availableCredits - cost))) ∧
    (∀ a2, redeemAccount a cost name = some a2 →
      a2.totalCredits = a.totalCredits ∧
      a2.transactions = a.transactions ++ [⟨TxType.redeemed, -cost, "Redeemed: " ++ name⟩]) := by
  refine ⟨fun h => ?_, fun h => ?_, fun a2 h2 => ?_⟩
  · unfold redeemEndpoint
    rw [hacc]
    dsimp only
    unfold redeemAccount
    rw [if_pos h]
  · unfold redeemEndpoint
    rw [hacc]
    dsimp only
    unfold redeemAccount
    rw [if_neg h]
  · unfold redeemAccount at h2
    split_ifs at h2
    injection h2 with h2
    subst h2
    exact ⟨rfl, rfl⟩

/-- Witness for C4: a fresh account holds 50 available credits, so a
100-credit redemption is rejected with the state unchanged, while a
30-credit redemption succeeds, leaves the total at 50 and appends a
`redeemed` transaction of amount −30. -/
theorem redemption_semantics_witness :
    redeemEndpoint stEmpty 100 "Shopping Voucher" =
      (stEmpty, Except.error "Insufficient credits") ∧
    redeemEndpoint stEmpty 30 "Tree Sapling" =
      ({ stEmpty with account := some ({ initialAccount with
            availableCredits := 20
            transactions := initialAccount.transactions ++
              [⟨TxType.redeemed, -30, "Redeemed: Tree Sapling"⟩] }) },
        Except.ok 20) :=
  ⟨(redemption_semantics stEmpty initialAccount 100 "Shopping Voucher" rfl).1 (by decide),
   (redemption_semantics stEmpty initialAccount 30 "Tree Sapling" rfl).2.1 (by decide)⟩

/-- Counterexample for C4 as stated: a redemption of cost 0 succeeds
and appends a transaction of amount 0, which is not negative — the
"negative-amount transaction" part of the claim fails for
non-positive costs, which the endpoint accepts unchecked. -/
theorem redemption_semantics_counterexample :
    (redeemEndpoint stEmpty 0 "freebie").2 = Except.ok 50 ∧
    ((redeemEndpoint stEmpty 0 "freebie").1.account.map
      (fun a => a.transactions.map Transaction.amount)) = some [50, 0] ∧
    ¬ (0 : Int) < 0 :=
  ⟨rfl, rfl, by omega⟩

theorem postTransactions (acc : CreditAccount) (ce sb : Nat) (ed bd : String) :
    (applyStreakBonus (applyEarnedCredits acc ce ed) sb bd).transactions.map
        (fun t => (t.type, t.amount)) =
      acc.transactions.map (fun t => (t.type, t.amount)) ++
        [(TxType.earned, (ce : Int))] ++
        (if sb > 0 then [(TxType.bonus, (sb : Int))] else []) := by
  unfold applyStreakBonus applyEarnedCredits
  split_ifs with h <;> simp

/-- C2: on every processed submission the multiplier is the pure
threshold function of the resulting streak (so streaks 1, 2, 3, 6, 7,
10 give multipliers 1, 1, 2, 2, 3, 3), the streak bonus equals
`baseCredits * (multiplier - 1)`, and the account receives the base
`earned` transaction followed by a `bonus` transaction exactly when
the bonus is positive. -/
theorem multiplier_and_streak_bonus (reports : List Report) (user : User)
    (acc : CreditAccount) (sub : Submission) (now : Int)
    (res : SubmitResult) (acc2 : CreditAccount)
    (hres : (submitCore reports user acc sub now).2.2.2 = res)
    (hacc2 : (submitCore reports user acc sub now).2.2.1 = acc2) :
    res.streakMultiplier =
      (if res.streak ≥ 7 then 3 else if res.streak ≥ 3 then 2 else 1) ∧
    res.streakBonus = res.baseCredits * (res.streakMultiplier - 1) ∧
    acc2.transactions.map (fun t => (t.type, t.amount)) =
      acc.transactions.map (fun t => (t.type, t.amount)) ++
        [(TxType.earned, (res.baseCredits : Int))] ++
        (if res.streakBonus > 0 then [(TxType.bonus, (res.streakBonus : Int))] else []) ∧
    [1, 2, 3, 6, 7, 10].map streakMultiplierOf = [1, 1, 2, 2, 3, 3] := by
  subst hres hacc2
  refine ⟨rfl, rfl, ?_, by decide⟩
  show ((evalBadges now BADGE_CRITERIA _).1.transactions).map _ = _
  rw [(evalBadges_counters now BADGE_CRITERIA _).2.2.1]
  exact postTransactions acc _ _ _ _

/-- Witness for C2 at the 7-day-streak scenario: streak 6 with
`lastReportDate` yesterday submits a full-quality report today; the
bonus field equals `baseCredits * (multiplier - 1)`. -/
theorem multiplier_and_streak_bonus_witness :
    (submitCore [] ⟨6, 6, some 0⟩ initialAccount subFull msPerDay).2.2.2.streakBonus =
      (submitCore [] ⟨6, 6, some 0⟩ initialAccount subFull msPerDay).2.2.2.baseCredits *
        ((submitCore [] ⟨6, 6, some 0⟩ initialAccount subFull msPerDay).2.2.2.streakMultiplier - 1) :=
  (multiplier_and_streak_bonus [] ⟨6, 6, some 0⟩ initialAccount subFull msPerDay
    _ _ rfl rfl).2.1

/-- C7: the quality score is the additive sum of the five fixed
per-field bonuses (photo +30, coordinates +30, description longer than
20 characters +20, category +10, disposal method +10), hence at most
100, and base credits are the fixed submission reward plus the
high-quality bonus exactly when the score is at least 80. -/
theorem quality_score_and_base_credits (reports : List Report) (user : User)
    (acc : CreditAccount) (sub : Submission) (now : Int) (res : SubmitResult)
    (hres : (submitCore reports user acc sub now).2.2.2 = res) :
    res.qualityScore =
      (if sub.photo.isSome then 30 else 0) +
      (if strTruthy sub.lat && strTruthy sub.lng then 30 else 0) +
      (if strTruthy sub.description && decide ((sub.description.getD "").length > 20)
        then 20 else 0) +
      (if strTruthy sub.wasteCategory then 10 else 0) +
      (if strTruthy sub.disposalMethod then 10 else 0) ∧
    res.qualityScore ≤ 100 ∧
    res.baseCredits =
      REPORT_SUBMITTED + (if res.qualityScore ≥ 80 then HIGH_QUALITY_REPORT else 0) := by
  subst hres
  refine ⟨rfl, ?_, rfl⟩
  show qualityScoreOf sub ≤ 100
  unfold qualityScoreOf
  split_ifs <;> norm_num

/-- Witness for C7: the fully populated submission scores exactly
30 + 30 + 20 + 10 + 10 = 100 ≤ 100. -/
theorem quality_score_and_base_credits_witness :
    (submitCore [] ⟨0, 0, none⟩ initialAccount subFull 0).2.2.2.qualityScore ≤ 100 :=
  (quality_score_and_base_credits [] ⟨0, 0, none⟩ initialAccount subFull 0 _ rfl).2.1

/-- C5 (amended): a truthy address that matches no configured zone
keyword yields the default central zone and the supplied coordinates
are never consulted; coordinate-based classification is reached only
when the address is absent or empty. -/
theorem zone_no_fallthrough_on_keyword_miss (address : String) (lat lng : Option String)
    (haddr : address ≠ "")
    (hnomatch : findZone (jsToLower address) ZONE_CONFIG = none) :
    assignZone (some address) lat lng = "Zone 5 - Central Gonda" ∧
    (∀ a, strTruthy a = false →
      assignZone a lat lng =
        (if strTruthy lat && strTruthy lng then
          match detectZoneFromCoordinates (parseFloat (lat.getD ""))
              (parseFloat (lng.getD "")) with
          | some gpsZone => gpsZone
          | none => "Zone 5 - Central Gonda"
        else "Zone 5 - Central Gonda")) := by
  constructor
  · unfold assignZone
    rw [if_pos (by simp [strTruthy, haddr])]
    unfold detectZone
    rw [if_neg (by simp [strTruthy, haddr])]
    show (match findZone (jsToLower address) ZONE_CONFIG with
      | some zoneName => zoneName
      | none => "Zone 5 - Central Gonda") = _
    rw [hnomatch]
  · intro a ha
    unfold assignZone
    rw [if_neg (by simp [ha])]

/-- Witness for C5: the address "Main Road" matches no keyword, and
despite in-range coordinates the handler assigns the default zone. -/
theorem zone_no_fallthrough_witness :
    assignZone (some "Main Road") (some "27.2") (some "81.97") = "Zone 5 - Central Gonda" :=
  (zone_no_fallthrough_on_keyword_miss "Main Road" (some "27.2") (some "81.97")
    (by decide) (by decide)).1

/-- Counterexample for C5 as stated: for the keyword-free address
"Main Road" with coordinates (27.2, 81.97) the handler returns the
default central zone, while coordinate-based classification of those
same coordinates returns the north zone — so classification does not
fall through to coordinates. -/
theorem zone_no_fallthrough_counterexample :
    assignZone (some "Main Road") (some "27.2") (some "81.97") = "Zone 5 - Central Gonda" ∧
    detectZoneFromCoordinates (parseFloat "27.2") (parseFloat "81.97") =
      some "Zone 1 - North Gonda" ∧
    assignZone (some "Main Road") (some "27.2") (some "81.97") ≠
      assignZone none (some "27.2") (some "81.97") := by
  decide

/-- C6 (amended): classification with no address and no coordinates,
or with an empty address, returns the default central zone;
non-numeric coordinate strings (a `NaN` parse) are treated as absent;
and the classifier is total, always returning one of the five
configured zones.  Out-of-range numeric coordinates, however, are not
range-checked and are classified by the threshold rules (see the
counterexample). -/
theorem default_zone_and_malformed_inputs (address lat lng : Option String) :
    assignZone none none none = "Zone 5 - Central Gonda" ∧
    assignZone (some "") none none = "Zone 5 - Central Gonda" ∧
    (∀ s t : String, parseFloat s = none →
      assignZone none (some s) (some t) = "Zone 5 - Central Gonda") ∧
    (∀ s t : String, parseFloat t = none →
      assignZone none (some s) (some t) = "Zone 5 - Central Gonda") ∧
    assignZone address lat lng ∈ zoneNames := by
  refine ⟨by decide, by decide, fun s t hs => ?_, fun s t ht => ?_,
    assignZone_mem address lat lng⟩
  · unfold assignZone
    rw [if_neg (by simp [strTruthy])]
    split_ifs with h
    · show (match detectZoneFromCoordinates (parseFloat s) (parseFloat t) with
        | some gpsZone => gpsZone
        | none => "Zone 5 - Central Gonda") = _
      rw [hs]
      have : detectZoneFromCoordinates none (parseFloat t) = none := by
        unfold detectZoneFromCoordinates
        rw [if_pos (by simp [numTruthy])]
      rw [this]
    · rfl
  · unfold assignZone
    rw [if_neg (by simp [strTruthy])]
    split_ifs with h
    · show (match detectZoneFromCoordinates (parseFloat s) (parseFloat t) with
        | some gpsZone => gpsZone
        | none => "Zone 5 - Central Gonda") = _
      rw [ht]
      have : detectZoneFromCoordinates (parseFloat s) none = none := by
        unfold detectZoneFromCoordinates
        rw [if_pos (by simp [numTruthy])]
      rw [this]
    · rfl

/-- Witness for C6: a non-numeric latitude string is treated as
absent, so the submission lands in the default central zone. -/
theorem default_zone_witness :
    assignZone none (some "abc") (some "50") = "Zone 5 - Central Gonda" :=
  (default_zone_and_malformed_inputs none none none).2.2.1 "abc" "50" (by decide)

/-- Counterexample for C6 as stated: the wildly out-of-range
coordinates (1000, 2000) are not treated as absent — the handler
classifies them as the north zone instead of the default central zone
it returns when the coordinates really are absent. -/
theorem default_zone_counterexample :
    assignZone none (some "1000") (some "2000") = "Zone 1 - North Gonda" ∧
    assignZone none none none = "Zone 5 - Central Gonda" ∧
    assignZone none (some "1000") (some "2000") ≠ assignZone none none none := by
  decide

end GreenCredits
